import Mathlib

/-!
# png-to-gif: the front end `src/main.js`

A shallow embedding of the page script. The script keeps two globals
(`sequenceInfo`, `isConverting`) and a table of DOM elements; every handler is
a state transformer over that data. An `async` handler is split at its single
`await`: the part that runs up to the host call, and the continuation that
runs once the host call has settled.
-/

namespace PngToGif

/-! ## JavaScript numbers and `parseInt` -/

/-- A JavaScript number as far as this script can observe one. `int i` is an
integer-valued double of magnitude below `2^53` (negative zero is `int 0`: the
script only compares it, and it compares like zero). `huge negative` is any
double of magnitude at least `2^53`, an infinity included: `parseInt` rounds
such values, and the script only compares them with small literals. -/
inductive JSNum where
  | nan
  | int (i : Int)
  | huge (negative : Bool)
  deriving DecidableEq, Repr

/-- The comparison `x < k` against an integer literal `k` of small magnitude.
Every comparison with `NaN` is false. -/
def JSNum.ltLit : JSNum → Int → Bool
  | .nan, _ => false
  | .int i, k => decide (i < k)
  | .huge negative, _ => negative

/-- The comparison `x > k` against an integer literal `k` of small magnitude. -/
def JSNum.gtLit : JSNum → Int → Bool
  | .nan, _ => false
  | .int i, k => decide (i > k)
  | .huge negative, _ => !negative

/-- The code points `parseInt` skips at the start of its argument: ECMAScript
`WhiteSpace` and `LineTerminator`. -/
def isStrWhiteSpace (c : Char) : Bool :=
  let n := c.toNat
  n = 0x09 || n = 0x0A || n = 0x0B || n = 0x0C || n = 0x0D || n = 0x20 ||
  n = 0xA0 || n = 0x1680 || (0x2000 ≤ n && n ≤ 0x200A) || n = 0x2028 ||
  n = 0x2029 || n = 0x202F || n = 0x205F || n = 0x3000 || n = 0xFEFF

/-- The value of a character as a digit, for radixes up to 36. -/
def digitValue (c : Char) : Option Nat :=
  let n := c.toNat
  if 48 ≤ n ∧ n ≤ 57 then some (n - 48)
  else if 97 ≤ n ∧ n ≤ 122 then some (n - 97 + 10)
  else if 65 ≤ n ∧ n ≤ 90 then some (n - 65 + 10)
  else none

/-- Reads the longest run of radix-`R` digits at the start of `cs`, folding it
into `acc`; returns the number of digits read and the value. -/
def readDigits (R : Nat) : List Char → Nat → Nat → Nat × Nat
  | [], count, acc => (count, acc)
  | c :: cs, count, acc =>
    match digitValue c with
    | some d => if d < R then readDigits R cs (count + 1) (acc * R + d) else (count, acc)
    | none => (count, acc)

/-- Drops the leading white space of the argument. -/
def trimStart : List Char → List Char
  | [] => []
  | c :: cs => if isStrWhiteSpace c then trimStart cs else c :: cs

/-- The sign of the trimmed argument and what follows the sign. -/
def splitSign : List Char → Bool × List Char
  | '-' :: cs => (true, cs)
  | '+' :: cs => (false, cs)
  | cs => (false, cs)

/-- The radix and the digits: a leading `0x` or `0X` selects radix 16, as
`parseInt` does when it is called without a radix. -/
def splitRadix : List Char → Nat × List Char
  | '0' :: 'x' :: cs => (16, cs)
  | '0' :: 'X' :: cs => (16, cs)
  | cs => (10, cs)

/-- The builtin `parseInt(string)`, called with one argument as the script
does. -/
def parseInt (s : String) : JSNum :=
  let (negative, afterSign) := splitSign (trimStart s.toList)
  let (R, digits) := splitRadix afterSign
  let (count, value) := readDigits R digits 0 0
  if count = 0 then .nan
  else if value < 2 ^ 53 then .int (if negative then -(value : Int) else value)
  else .huge negative

/-! ## Data exchanged with the host -/

/-- The result of `analyze_png_sequence`, with the fields the script reads.
`prefixStr` is the field `prefix`. The host sends one record shape for valid
and invalid results alike; `error` is `null` when there is none. -/
structure SequenceInfo where
  valid : Bool
  error : Option String
  pattern : String
  frame_count : Int
  start_number : Int
  directory : String
  prefixStr : String
  deriving DecidableEq, Repr

/-- The `request` object built by `startConversion`. -/
structure ConversionRequest where
  sequence_info : SequenceInfo
  framerate : JSNum
  width : JSNum
  loop_forever : Bool
  output_path : String
  deriving DecidableEq, Repr

/-- The result of `check_ffmpeg_installed`. -/
structure FfmpegInfo where
  installed : Bool
  version : Option String
  deriving DecidableEq, Repr

/-- A command sent to the host with `invoke`. -/
inductive HostCall where
  | check_ffmpeg_installed
  | analyze_png_sequence (paths : List String)
  | start_conversion (request : ConversionRequest)
  deriving DecidableEq, Repr

/-- How a host call settles: the promise resolves with a value or rejects with
an error string. -/
inductive Settled (α : Type) where
  | resolved (value : α)
  | rejected (error : String)
  deriving DecidableEq, Repr

/-! ## The page: globals and DOM elements -/

/-- `classList.add(token)` on the token list of a class attribute. -/
def classAdd (classes : List String) (token : String) : List String :=
  if token ∈ classes then classes else classes ++ [token]

/-- `classList.remove(token)`. -/
def classRemove (classes : List String) (token : String) : List String :=
  classes.filter (fun t => t ≠ token)

/-- The `div` that `checkFfmpeg` appends to the status box. -/
structure Instructions where
  marginTop : String
  fontSize : String
  innerHTML : String
  deriving DecidableEq, Repr

/-- The element `#ffmpeg-status`. -/
structure StatusBox where
  textContent : String
  className : List String
  children : List Instructions
  deriving DecidableEq, Repr

/-- The element `#drop-zone`, with the two inline styles the script sets. -/
structure DropZone where
  classList : List String
  pointerEvents : String
  opacity : String
  deriving DecidableEq, Repr

/-- The element `#sequence-info`. `innerHTML` holds the markup as the script
assigned it. -/
structure InfoPanel where
  classList : List String
  innerHTML : String
  deriving DecidableEq, Repr

/-- An element of which only the class list is touched (`#settings`,
`#progress-container`). -/
structure Panel where
  classList : List String
  deriving DecidableEq, Repr

/-- A text or number input (`#framerate`, `#width`, `#output-path`). -/
structure Input where
  value : String
  deriving DecidableEq, Repr

/-- The element `#loop`. -/
structure Checkbox where
  checked : Bool
  deriving DecidableEq, Repr

/-- The element `#convert-btn`. -/
structure Button where
  disabled : Bool
  deriving DecidableEq, Repr

/-- The element `#progress-fill`. `width` holds the number `p` of the style
value `p%` that the element carries; a percent is a rational here, and the
script never does arithmetic on one. -/
structure ProgressFill where
  width : Rat
  deriving DecidableEq, Repr

/-- The assignment `style.width = p + "%"`. A negative percentage is not a
width in CSS: the browser drops the assignment and the element keeps the
width it had. -/
def setWidthPercent (fill : ProgressFill) (p : Rat) : ProgressFill :=
  if p < 0 then fill else { fill with width := p }

/-- The text of `#progress-text`: a literal string, or the template
`Frame f / total (p.toFixed(1)%)` kept with its three values. -/
inductive ProgressText where
  | literal (text : String)
  | frameOf (frame : Int) (total : Int) (percent : Rat)
  deriving DecidableEq, Repr

/-- The element `#message`. -/
structure Message where
  textContent : String
  classList : List String
  deriving DecidableEq, Repr

/-- The table `elements` filled in on `DOMContentLoaded`. -/
structure Elements where
  ffmpegStatus : StatusBox
  dropZone : DropZone
  sequenceInfo : InfoPanel
  settings : Panel
  framerateInput : Input
  widthInput : Input
  loopCheckbox : Checkbox
  outputPath : Input
  convertBtn : Button
  progressContainer : Panel
  progressFill : ProgressFill
  progressText : ProgressText
  message : Message
  deriving DecidableEq, Repr

/-- The script's state: the two globals and the DOM it writes to. -/
structure State where
  sequenceInfo : Option SequenceInfo
  isConverting : Bool
  elements : Elements
  deriving DecidableEq, Repr

/-- The operator `a || fallback` on an optional string: `undefined`, `null`
and the empty string are falsy. -/
def orElse (a : Option String) (fallback : String) : String :=
  match a with
  | some v => if v = "" then fallback else v
  | none => fallback

/-! ## Messages and panels -/

def showMessage (s : State) (text type : String) : State :=
  { s with elements.message :=
      { textContent := text, classList := classRemove ["message", type] "hidden" } }

def hideMessage (s : State) : State :=
  { s with elements.message.classList := classAdd s.elements.message.classList "hidden" }

def showSuccess (s : State) (text : String) : State :=
  showMessage s text "success"

def showError (s : State) (text : String) : State :=
  showMessage s text "error"

def displaySequenceInfo (s : State) (info : SequenceInfo) : State :=
  { s with elements.sequenceInfo :=
      { innerHTML :=
          "\n    <h3>Detected Sequence</h3>\n    <p><strong>Pattern:</strong> " ++ info.pattern ++
          "</p>\n    <p><strong>Frames:</strong> " ++ toString info.frame_count ++
          " (starting at " ++ toString info.start_number ++
          ")</p>\n    <p><strong>Directory:</strong> " ++ info.directory ++ "</p>\n  ",
        classList := classRemove s.elements.sequenceInfo.classList "hidden" } }

def hideSequenceInfo (s : State) : State :=
  { s with elements.sequenceInfo.classList :=
      classAdd s.elements.sequenceInfo.classList "hidden" }

def showSettings (s : State) (info : SequenceInfo) : State :=
  let defaultOutput := info.directory ++ "/" ++ info.prefixStr ++ "_animated.gif"
  { s with
      elements.outputPath.value := defaultOutput,
      elements.settings.classList := classRemove s.elements.settings.classList "hidden" }

def hideSettings (s : State) : State :=
  { s with elements.settings.classList := classAdd s.elements.settings.classList "hidden" }

def showProgress (s : State) : State :=
  { s with
      elements.progressContainer.classList :=
        classRemove s.elements.progressContainer.classList "hidden",
      elements.progressFill.width := 0,
      elements.progressText := .literal "Starting conversion..." }

def hideProgress (s : State) : State :=
  { s with elements.progressContainer.classList :=
      classAdd s.elements.progressContainer.classList "hidden" }

/-- The listener of `conversion-progress`. With `sequenceInfo` still `null`
the read of `frame_count` throws after the width has been assigned, and the
text stays as it was. -/
def updateProgress (s : State) (frame : Int) (percent : Rat) : State :=
  let s1 := { s with elements.progressFill := setWidthPercent s.elements.progressFill percent }
  match s1.sequenceInfo with
  | none => s1
  | some info => { s1 with elements.progressText := .frameOf frame info.frame_count percent }

/-! ## Startup: `checkFfmpeg` -/

/-- The test `navigator.platform.toLowerCase().includes("mac")`. Only the
letters of `mac` matter, so lowering the ASCII letters is enough. -/
def isMacPlatform (platform : String) : Bool :=
  (platform.toList.map Char.toLower).tails.any (fun t => "mac".toList.isPrefixOf t)

/-- The continuation of `checkFfmpeg` once `check_ffmpeg_installed` has
settled. -/
def checkFfmpeg (s : State) (platform : String) (r : Settled FfmpegInfo) : State :=
  match r with
  | .resolved ffmpegInfo =>
    if ffmpegInfo.installed then
      { s with elements.ffmpegStatus :=
          { textContent := "FFmpeg installed: " ++ orElse ffmpegInfo.version "Unknown version",
            className := ["status-box", "success"],
            children := [] } }
    else
      let instructions : Instructions :=
        { marginTop := "10px",
          fontSize := "12px",
          innerHTML :=
            if isMacPlatform platform then "Install with: <code>brew install ffmpeg</code>"
            else "Download from: <a href=\"https://ffmpeg.org/download.html\" target=\"_blank\">ffmpeg.org</a>" }
      { s with
          elements.ffmpegStatus :=
            { textContent := "FFmpeg not installed. Please install FFmpeg first.",
              className := ["status-box", "error"],
              children := [instructions] },
          elements.dropZone.pointerEvents := "none",
          elements.dropZone.opacity := "0.5" }
  | .rejected error => showError s ("Failed to check FFmpeg: " ++ error)

/-! ## Sequence analysis: `handleFiles` -/

/-- The part of `handleFiles` that runs up to `await invoke(...)`: the state
it leaves and the command it sends. -/
def handleFiles (s : State) (paths : List String) : State × HostCall :=
  let s1 := { s with elements.dropZone.classList :=
                classRemove s.elements.dropZone.classList "drag-over" }
  (hideMessage s1, .analyze_png_sequence paths)

/-- The continuation of `handleFiles` once `analyze_png_sequence` has
settled. The global is assigned before `valid` is looked at. -/
def handleFilesSettled (s : State) (r : Settled SequenceInfo) : State :=
  match r with
  | .resolved info =>
    let s1 := { s with sequenceInfo := some info }
    if info.valid then
      showSettings (displaySequenceInfo s1 info) info
    else
      hideSettings (hideSequenceInfo (showError s1 (orElse info.error "Invalid PNG sequence")))
  | .rejected error =>
    hideSettings (hideSequenceInfo (showError s ("Failed to analyze sequence: " ++ error)))

/-- The click listener of the drop zone, after the `open` dialog has returned
`selected` (`null` when the dialog is dismissed). -/
def dropZoneClick (s : State) (selected : Option (List String)) : State × Option HostCall :=
  match selected with
  | some paths =>
    if paths.length > 0 then
      let (s1, call) := handleFiles s paths
      (s1, some call)
    else (s, none)
  | none => (s, none)

/-- The `defaultPath` the browse listener hands to the `save` dialog. -/
def browseDefaultPath (s : State) : String :=
  match s.sequenceInfo with
  | some info => info.prefixStr ++ "_animated.gif"
  | none => "output.gif"

/-- The click listener of the browse button, after the `save` dialog has
returned `outputPath` (`null` when the dialog is dismissed). -/
def browseBtnClick (s : State) (outputPath : Option String) : State :=
  match outputPath with
  | some path => if path = "" then s else { s with elements.outputPath.value := path }
  | none => s

/-! ## Conversion: `startConversion` -/

/-- The part of `startConversion` that runs up to `await invoke(...)`: the
state it leaves, and the request it sends if it gets that far. -/
def startConversion (s : State) : State × Option ConversionRequest :=
  match s.sequenceInfo with
  | none => (s, none)
  | some sequenceInfo =>
    if s.isConverting then (s, none)
    else
      let framerate := parseInt s.elements.framerateInput.value
      let width := parseInt s.elements.widthInput.value
      let loopForever := s.elements.loopCheckbox.checked
      let outputPath := s.elements.outputPath.value
      if outputPath = "" then
        (showError s "Please specify an output path", none)
      else if framerate.ltLit 1 || framerate.gtLit 120 then
        (showError s "Framerate must be between 1 and 120", none)
      else if width.ltLit 1 || width.gtLit 10000 then
        (showError s "Width must be between 1 and 10000", none)
      else
        let s1 := { s with isConverting := true, elements.convertBtn.disabled := true }
        let request : ConversionRequest :=
          { sequence_info := sequenceInfo,
            framerate := framerate,
            width := width,
            loop_forever := loopForever,
            output_path := outputPath }
        (showProgress (hideMessage s1), some request)

/-- The continuation of `startConversion` once `start_conversion` has settled:
the rest of the `try` block or the `catch` block, then the `finally` block.
`outputPath` is the local constant read before the call. -/
def startConversionSettled (s : State) (outputPath : String) (r : Settled Unit) : State :=
  let s1 :=
    match r with
    | .resolved _ => showSuccess (hideProgress s) ("GIF created successfully at: " ++ outputPath)
    | .rejected error => showError (hideProgress s) ("Conversion failed: " ++ error)
  { s1 with isConverting := false, elements.convertBtn.disabled := false }

/-! ## The page as a transition system -/

/-- The page together with the host calls it has made: the log of `invoke`
commands (oldest first), the number of `handleFiles` calls still waiting for
`analyze_png_sequence`, and for each `startConversion` call still waiting for
`start_conversion` the `outputPath` it holds. -/
structure World where
  page : State
  calls : List HostCall
  pendingAnalyses : Nat
  pendingConversions : List String
  deriving DecidableEq, Repr

/-- What can happen to the page once its listeners are set up. -/
inductive Event where
  | clickDropZone (selected : Option (List String))
  | dragDrop (paths : List String)
  | dragEnter
  | dragLeave
  | analysisSettled (r : Settled SequenceInfo)
  | clickBrowse (outputPath : Option String)
  | clickConvert
  | conversionSettled (r : Settled Unit)
  | conversionProgress (frame : Int) (percent : Rat)
  | inputFramerate (value : String)
  | inputWidth (value : String)
  | inputLoop (checked : Bool)
  | inputOutputPath (value : String)
  deriving DecidableEq, Repr

/-- One event. The browser delivers no click to an element whose
`pointer-events` style is `none`; `tauri://drag-drop` comes from the window
and is delivered whatever the styles are. A promise settles only if it is
pending. `clickConvert` stands for any call of `startConversion`. -/
def step (w : World) : Event → World
  | .clickDropZone selected =>
    if w.page.elements.dropZone.pointerEvents = "none" then w
    else
      match dropZoneClick w.page selected with
      | (s, some call) =>
        { w with page := s, calls := w.calls ++ [call], pendingAnalyses := w.pendingAnalyses + 1 }
      | (s, none) => { w with page := s }
  | .dragDrop paths =>
    let (s, call) := handleFiles w.page paths
    { w with page := s, calls := w.calls ++ [call], pendingAnalyses := w.pendingAnalyses + 1 }
  | .dragEnter =>
    { w with page.elements.dropZone.classList :=
        classAdd w.page.elements.dropZone.classList "drag-over" }
  | .dragLeave =>
    { w with page.elements.dropZone.classList :=
        classRemove w.page.elements.dropZone.classList "drag-over" }
  | .analysisSettled r =>
    match w.pendingAnalyses with
    | 0 => w
    | n + 1 => { w with page := handleFilesSettled w.page r, pendingAnalyses := n }
  | .clickBrowse outputPath => { w with page := browseBtnClick w.page outputPath }
  | .clickConvert =>
    match startConversion w.page with
    | (s, some request) =>
      { w with page := s, calls := w.calls ++ [.start_conversion request],
               pendingConversions := w.pendingConversions ++ [request.output_path] }
    | (s, none) => { w with page := s }
  | .conversionSettled r =>
    match w.pendingConversions with
    | [] => w
    | outputPath :: rest =>
      { w with page := startConversionSettled w.page outputPath r, pendingConversions := rest }
  | .conversionProgress frame percent => { w with page := updateProgress w.page frame percent }
  | .inputFramerate value => { w with page.elements.framerateInput.value := value }
  | .inputWidth value => { w with page.elements.widthInput.value := value }
  | .inputLoop checked => { w with page.elements.loopCheckbox.checked := checked }
  | .inputOutputPath value => { w with page.elements.outputPath.value := value }

/-- A sequence of events, oldest first. -/
def run (w : World) (events : List Event) : World :=
  events.foldl step w

/-- The page when the `DOMContentLoaded` handler has finished: the globals at
their initial values, the document's elements as `dom` gives them, and
`checkFfmpeg` run on the way `check_ffmpeg_installed` settled. -/
def boot (dom : Elements) (platform : String) (r : Settled FfmpegInfo) : World :=
  { page := checkFfmpeg { sequenceInfo := none, isConverting := false, elements := dom } platform r,
    calls := [.check_ffmpeg_installed],
    pendingAnalyses := 0,
    pendingConversions := [] }

/-! ## Vocabulary of the properties -/

/-- The number is not `NaN` and lies outside `[lo, hi]`. -/
def JSNum.outside (x : JSNum) (lo hi : Int) : Bool :=
  match x with
  | .nan => false
  | .int i => decide (i < lo) || decide (hi < i)
  | .huge _ => true

/-- An error-type message is on display: the message element carries the
class `error` and not the class `hidden`. -/
def showsError (s : State) : Bool :=
  decide ("error" ∈ s.elements.message.classList) &&
  !decide ("hidden" ∈ s.elements.message.classList)

/-- The bookkeeping invariant of the page: `isConverting` is true exactly
while one `start_conversion` call is pending, and no second one ever is. -/
def oneJob (w : World) : Prop :=
  w.pendingConversions.length = if w.page.isConverting then 1 else 0

/-- A document for the examples: nothing loaded yet, the panels hidden, a
frame rate of 10 and a width of 800 typed in. -/
def exampleDom : Elements :=
  { ffmpegStatus := { textContent := "Checking FFmpeg...", className := ["status-box"], children := [] },
    dropZone := { classList := ["drop-zone"], pointerEvents := "", opacity := "" },
    sequenceInfo := { classList := ["info-box", "hidden"], innerHTML := "" },
    settings := { classList := ["settings", "hidden"] },
    framerateInput := { value := "10" },
    widthInput := { value := "800" },
    loopCheckbox := { checked := true },
    outputPath := { value := "" },
    convertBtn := { disabled := false },
    progressContainer := { classList := ["progress-container", "hidden"] },
    progressFill := { width := 0 },
    progressText := .literal "",
    message := { textContent := "", classList := ["message", "hidden"] } }

/-- A valid analysis result for the examples: three frames `a/img_001.png` to
`a/img_003.png`. -/
def exampleInfo : SequenceInfo :=
  { valid := true, error := none, pattern := "img_%03d.png", frame_count := 3,
    start_number := 1, directory := "a", prefixStr := "img_" }

/-- A page for the examples: the sequence `exampleInfo` loaded, no conversion
active, and the output path filled in. -/
def examplePage : State :=
  { sequenceInfo := some exampleInfo,
    isConverting := false,
    elements := { exampleDom with outputPath := { value := "a/img__animated.gif" } } }

/-- An analysis result with `valid = false`, as the host gives one for files
from two directories. -/
def exampleInvalidInfo : SequenceInfo :=
  { valid := false, error := some "Files are in different directories", pattern := "",
    frame_count := 0, start_number := 0, directory := "", prefixStr := "" }

/-- The page of the examples after startup, with FFmpeg found. -/
def exampleBoot : World :=
  boot exampleDom "Linux x86_64" (.resolved { installed := true, version := some "6.0" })

/-- Three frames are dropped and analysed, then the conversion is started. -/
def exampleConvertEvents : List Event :=
  [.dragDrop ["a/img_001.png", "a/img_002.png", "a/img_003.png"],
   .analysisSettled (.resolved exampleInfo),
   .clickConvert]

/-- The conversion of the examples is running and has reported 10 percent,
then 40 percent. -/
def exampleProgressEvents : List Event :=
  exampleConvertEvents ++ [.conversionProgress 1 10, .conversionProgress 2 40]

/-! ## Parameter validation -/

theorem showError_classList (s : State) (text : String) :
    (showError s text).elements.message.classList = ["message", "error"] := by
  simp [showError, showMessage, classRemove, List.filter]

/-- C1: with a sequence loaded and no conversion active, an empty output path,
a frame rate that parses to a number outside 1..120 or a width that parses to
a number outside 1..10000 makes `startConversion` return before the host call:
no request is sent, the page is the old one with an error message shown, so
`isConverting` is still false and the convert button is as it was. -/
theorem startConversion_rejects_invalid (s : State) (info : SequenceInfo)
    (hseq : s.sequenceInfo = some info) (hidle : s.isConverting = false)
    (hbad : s.elements.outputPath.value = "" ∨
      (parseInt s.elements.framerateInput.value).outside 1 120 = true ∨
      (parseInt s.elements.widthInput.value).outside 1 10000 = true) :
    (startConversion s).2 = none ∧
    (∃ text, (startConversion s).1 = showError s text) ∧
    showsError (startConversion s).1 = true ∧
    (startConversion s).1.isConverting = false ∧
    (startConversion s).1.elements.convertBtn.disabled = s.elements.convertBtn.disabled ∧
    ∀ w : World, w.page = s → (step w .clickConvert).calls = w.calls := by
  have key : ∃ text, startConversion s = (showError s text, none) := by
    unfold startConversion
    rw [hseq]
    simp only [hidle]
    by_cases hp : s.elements.outputPath.value = ""
    · exact ⟨"Please specify an output path", by simp [hp]⟩
    · rcases hbad with h | h | h
      · exact absurd h hp
      · refine ⟨"Framerate must be between 1 and 120", ?_⟩
        have : ((parseInt s.elements.framerateInput.value).ltLit 1 ||
            (parseInt s.elements.framerateInput.value).gtLit 120) = true := by
          cases hv : parseInt s.elements.framerateInput.value <;>
            simp_all [JSNum.outside, JSNum.ltLit, JSNum.gtLit]
        simp [hp, this]
      · by_cases hf : ((parseInt s.elements.framerateInput.value).ltLit 1 ||
            (parseInt s.elements.framerateInput.value).gtLit 120) = true
        · exact ⟨"Framerate must be between 1 and 120", by simp [hp, hf]⟩
        · refine ⟨"Width must be between 1 and 10000", ?_⟩
          have : ((parseInt s.elements.widthInput.value).ltLit 1 ||
              (parseInt s.elements.widthInput.value).gtLit 10000) = true := by
            cases hv : parseInt s.elements.widthInput.value <;>
              simp_all [JSNum.outside, JSNum.ltLit, JSNum.gtLit]
          simp [hp, hf, this]
  obtain ⟨text, ht⟩ := key
  refine ⟨by rw [ht], ⟨text, by rw [ht]⟩, ?_, ?_, ?_, ?_⟩
  · rw [ht]; simp [showsError, showError_classList]
  · rw [ht]; simpa [showError, showMessage] using hidle
  · rw [ht]; simp [showError, showMessage]
  · intro w hw
    simp [step, hw, ht]

/-- C1 at a concrete page: a frame rate of 121. -/
theorem startConversion_rejects_invalid_witness :
    (parseInt "121").outside 1 120 = true ∧
    (startConversion { examplePage with elements.framerateInput.value := "121" }).2 = none ∧
    showsError (startConversion { examplePage with elements.framerateInput.value := "121" }).1
      = true :=
  have h := startConversion_rejects_invalid
    { examplePage with elements.framerateInput.value := "121" } exampleInfo rfl rfl
    (Or.inr (Or.inl (by decide)))
  ⟨by decide, h.1, h.2.2.1⟩

theorem startConversion_valid (s : State) (info : SequenceInfo) (f w : Int)
    (hseq : s.sequenceInfo = some info) (hidle : s.isConverting = false)
    (hpath : s.elements.outputPath.value ≠ "")
    (hf : parseInt s.elements.framerateInput.value = .int f) (hf1 : 1 ≤ f) (hf2 : f ≤ 120)
    (hw : parseInt s.elements.widthInput.value = .int w) (hw1 : 1 ≤ w) (hw2 : w ≤ 10000) :
    startConversion s =
      (showProgress (hideMessage
        { s with isConverting := true, elements.convertBtn.disabled := true }),
       some { sequence_info := info, framerate := .int f, width := .int w,
              loop_forever := s.elements.loopCheckbox.checked,
              output_path := s.elements.outputPath.value }) := by
  have hf' : ((JSNum.int f).ltLit 1 || (JSNum.int f).gtLit 120) = false := by
    simp [JSNum.ltLit, JSNum.gtLit]; omega
  have hw' : ((JSNum.int w).ltLit 1 || (JSNum.int w).gtLit 10000) = false := by
    simp [JSNum.ltLit, JSNum.gtLit]; omega
  unfold startConversion
  rw [hseq]
  simp only [hidle, hf, hw, hf', hw']
  simp [hpath]

/-- C2: with a sequence loaded, no conversion active, a non-empty output path,
a frame rate that parses to an integer in 1..120 and a width that parses to an
integer in 1..10000, `startConversion` sends exactly one `start_conversion`
command, and its request holds the current `sequenceInfo`, that frame rate,
that width, the state of the loop checkbox and that output path. -/
theorem startConversion_dispatches (s : State) (info : SequenceInfo) (f w : Int)
    (hseq : s.sequenceInfo = some info) (hidle : s.isConverting = false)
    (hpath : s.elements.outputPath.value ≠ "")
    (hf : parseInt s.elements.framerateInput.value = .int f) (hf1 : 1 ≤ f) (hf2 : f ≤ 120)
    (hw : parseInt s.elements.widthInput.value = .int w) (hw1 : 1 ≤ w) (hw2 : w ≤ 10000) :
    (startConversion s).2 = some
      { sequence_info := info, framerate := .int f, width := .int w,
        loop_forever := s.elements.loopCheckbox.checked,
        output_path := s.elements.outputPath.value } ∧
    ∀ world : World, world.page = s →
      (step world .clickConvert).calls = world.calls ++ [.start_conversion
        { sequence_info := info, framerate := .int f, width := .int w,
          loop_forever := s.elements.loopCheckbox.checked,
          output_path := s.elements.outputPath.value }] := by
  have key := startConversion_valid s info f w hseq hidle hpath hf hf1 hf2 hw hw1 hw2
  refine ⟨by rw [key], ?_⟩
  intro world hworld
  simp [step, hworld, key]

/-- C2 at a concrete page: a frame rate of 120 and a width of 1. -/
theorem startConversion_dispatches_witness :
    (startConversion { examplePage with
        elements.framerateInput.value := "120", elements.widthInput.value := "1" }).2 = some
      { sequence_info := exampleInfo, framerate := .int 120, width := .int 1,
        loop_forever := true, output_path := "a/img__animated.gif" } :=
  (startConversion_dispatches
    { examplePage with elements.framerateInput.value := "120", elements.widthInput.value := "1" }
    exampleInfo 120 1 rfl rfl (by decide) (by decide) (by decide) (by decide)
    (by decide) (by decide) (by decide)).1

/-- C3, the code at an empty frame-rate field: `parseInt` gives `NaN`, both
comparisons with `NaN` are false, and the request goes out with `NaN` as its
frame rate. -/
theorem startConversion_sends_nan :
    parseInt "" = .nan ∧
    (startConversion { examplePage with elements.framerateInput.value := "" }).2 = some
      { sequence_info := exampleInfo, framerate := .nan, width := .int 800,
        loop_forever := true, output_path := "a/img__animated.gif" } := by
  constructor <;> decide

/-! ## One conversion at a time -/

theorem startConversion_busy (s : State) (h : s.isConverting = true) :
    startConversion s = (s, none) := by
  unfold startConversion
  cases s.sequenceInfo <;> simp [h]

theorem startConversion_cases (s : State) :
    (startConversion s).2 = none ∧ (startConversion s).1.isConverting = s.isConverting ∨
    (∃ request, (startConversion s).2 = some request) ∧ s.isConverting = false ∧
      (startConversion s).1.isConverting = true := by
  unfold startConversion
  cases hs : s.sequenceInfo with
  | none => simp
  | some info =>
    cases hc : s.isConverting with
    | true => simp [hc]
    | false =>
      simp only []
      split_ifs <;> simp [showError, showMessage, showProgress, hideMessage, hc]

theorem handleFiles_isConverting (s : State) (paths : List String) :
    (handleFiles s paths).1.isConverting = s.isConverting := by
  simp [handleFiles, hideMessage]

theorem handleFilesSettled_isConverting (s : State) (r : Settled SequenceInfo) :
    (handleFilesSettled s r).isConverting = s.isConverting := by
  unfold handleFilesSettled
  cases r with
  | resolved info =>
    by_cases hv : info.valid = true <;>
      simp [hv, showSettings, displaySequenceInfo, hideSettings, hideSequenceInfo, showError,
        showMessage]
  | rejected error => simp [hideSettings, hideSequenceInfo, showError, showMessage]

theorem updateProgress_isConverting (s : State) (frame : Int) (percent : Rat) :
    (updateProgress s frame percent).isConverting = s.isConverting := by
  unfold updateProgress
  cases s.sequenceInfo <;> simp

theorem checkFfmpeg_isConverting (s : State) (platform : String) (r : Settled FfmpegInfo) :
    (checkFfmpeg s platform r).isConverting = s.isConverting := by
  unfold checkFfmpeg
  cases r with
  | resolved ffmpegInfo => by_cases hi : ffmpegInfo.installed = true <;> simp [hi]
  | rejected error => simp [showError, showMessage]

theorem boot_oneJob (dom : Elements) (platform : String) (r : Settled FfmpegInfo) :
    oneJob (boot dom platform r) := by
  simp [oneJob, boot, checkFfmpeg_isConverting]

theorem step_oneJob (w : World) (e : Event) (h : oneJob w) : oneJob (step w e) := by
  unfold oneJob at h ⊢
  cases e with
  | clickDropZone selected =>
    unfold step
    by_cases hp : w.page.elements.dropZone.pointerEvents = "none"
    · simpa [hp] using h
    · simp only [hp, if_false]
      cases selected with
      | none => simpa [dropZoneClick] using h
      | some paths =>
        by_cases hl : paths.length > 0
        · simpa [dropZoneClick, hl, handleFiles_isConverting] using h
        · simpa [dropZoneClick, hl] using h
  | dragDrop paths => simpa [step, handleFiles_isConverting] using h
  | dragEnter => simpa [step] using h
  | dragLeave => simpa [step] using h
  | analysisSettled r =>
    unfold step
    cases hn : w.pendingAnalyses with
    | zero => simpa using h
    | succ n => simpa [handleFilesSettled_isConverting] using h
  | clickBrowse outputPath =>
    cases outputPath with
    | none => simpa [step, browseBtnClick] using h
    | some path =>
      by_cases hp : path = "" <;> simpa [step, browseBtnClick, hp] using h
  | clickConvert =>
    unfold step
    rcases startConversion_cases w.page with ⟨h2, h1⟩ | ⟨⟨request, h2⟩, hc, h1⟩
    · have hs : startConversion w.page = ((startConversion w.page).1, none) := by
        rw [← h2]
      rw [hs]
      simpa [h1] using h
    · have hs : startConversion w.page = ((startConversion w.page).1, some request) := by
        rw [← h2]
      rw [hs]
      simp [hc] at h
      simp [h1, h]
  | conversionSettled r =>
    unfold step
    cases hp : w.pendingConversions with
    | nil => simpa [hp] using h
    | cons outputPath rest =>
      rw [hp] at h
      have hrest : rest = [] := by
        by_cases hc : w.page.isConverting = true
        · simp [hc] at h
          exact h
        · simp [hc] at h
      simp [startConversionSettled, hrest]
  | conversionProgress frame percent => simpa [step, updateProgress_isConverting] using h
  | inputFramerate value => simpa [step] using h
  | inputWidth value => simpa [step] using h
  | inputLoop checked => simpa [step] using h
  | inputOutputPath value => simpa [step] using h

theorem run_oneJob (events : List Event) (w : World) (h : oneJob w) : oneJob (run w events) := by
  induction events generalizing w with
  | nil => simpa [run] using h
  | cons e rest ih =>
    have : run w (e :: rest) = run (step w e) rest := by simp [run]
    rw [this]
    exact ih (step w e) (step_oneJob w e h)

/-- C6: in every state the page can reach from its start, at most one
`start_conversion` call is pending; while one is pending `isConverting` is
true; and a call of `startConversion` made while `isConverting` is true sends
nothing and leaves the whole state as it was. -/
theorem at_most_one_conversion (dom : Elements) (platform : String) (r : Settled FfmpegInfo)
    (events : List Event) :
    (run (boot dom platform r) events).pendingConversions.length ≤ 1 ∧
    ((run (boot dom platform r) events).pendingConversions ≠ [] →
      (run (boot dom platform r) events).page.isConverting = true) ∧
    ((run (boot dom platform r) events).page.isConverting = true →
      startConversion (run (boot dom platform r) events).page
        = ((run (boot dom platform r) events).page, none) ∧
      step (run (boot dom platform r) events) .clickConvert
        = run (boot dom platform r) events) := by
  have h := run_oneJob events _ (boot_oneJob dom platform r)
  unfold oneJob at h
  refine ⟨?_, ?_, ?_⟩
  · rw [h]; split_ifs <;> simp
  · intro hne
    by_contra hc
    simp [hc] at h
    exact hne h
  · intro hc
    refine ⟨startConversion_busy _ hc, ?_⟩
    simp [step, startConversion_busy _ hc]

/-- C6 on a concrete run: three frames are dropped and analysed, the
conversion is started, and a second call of `startConversion` changes
nothing. -/
theorem at_most_one_conversion_witness :
    (run exampleBoot exampleConvertEvents).page.isConverting = true ∧
    (run exampleBoot exampleConvertEvents).pendingConversions = ["a/img__animated.gif"] ∧
    step (run exampleBoot exampleConvertEvents) .clickConvert
      = run exampleBoot exampleConvertEvents :=
  ⟨by decide, by decide,
    ((at_most_one_conversion exampleDom "Linux x86_64"
      (.resolved { installed := true, version := some "6.0" }) exampleConvertEvents).2.2
        (by decide)).2⟩

/-- C7, the code on a busy page: the second call of `startConversion` shows
no error message. -/
theorem startConversion_busy_shows_nothing :
    (run exampleBoot exampleConvertEvents).page.isConverting = true ∧
    showsError (startConversion (run exampleBoot exampleConvertEvents).page).1 = false := by
  constructor <;> decide

/-- C7 as amended: a call of `startConversion` made while `isConverting` is
true is dropped in silence: nothing is sent, and the message element is left
as it was, text and classes. -/
theorem startConversion_busy_silent (s : State) (h : s.isConverting = true) :
    (startConversion s).2 = none ∧
    (startConversion s).1.elements.message = s.elements.message ∧
    showsError (startConversion s).1 = showsError s := by
  rw [startConversion_busy s h]
  exact ⟨rfl, rfl, rfl⟩

/-- C7 as amended, on a concrete busy page. -/
theorem startConversion_busy_silent_witness :
    (startConversion (run exampleBoot exampleConvertEvents).page).1.elements.message
      = (run exampleBoot exampleConvertEvents).page.elements.message :=
  (startConversion_busy_silent (run exampleBoot exampleConvertEvents).page (by decide)).2.1

/-! ## The sequence behind a request -/

/-- C4, the code on a concrete run: a valid sequence is analysed, then files
from two directories are dropped and the analysis comes back with
`valid = false`; `handleFiles` has stored that result in `sequenceInfo`, and
the following call of `startConversion` sends it to the encoder. -/
theorem startConversion_sends_invalid_sequence :
    exampleInvalidInfo.valid = false ∧
    (run exampleBoot
      [.dragDrop ["a/img_001.png", "a/img_002.png", "a/img_003.png"],
       .analysisSettled (.resolved exampleInfo),
       .dragDrop ["a/x.png", "b/y.png"],
       .analysisSettled (.resolved exampleInvalidInfo),
       .clickConvert]).calls =
      [.check_ffmpeg_installed,
       .analyze_png_sequence ["a/img_001.png", "a/img_002.png", "a/img_003.png"],
       .analyze_png_sequence ["a/x.png", "b/y.png"],
       .start_conversion
         { sequence_info := exampleInvalidInfo, framerate := .int 10, width := .int 800,
           loop_forever := true, output_path := "a/img__animated.gif" }] := by
  constructor <;> decide

/-! ## Progress events -/

theorem updateProgress_width (s : State) (frame : Int) (percent : Rat) (h : 0 ≤ percent) :
    (updateProgress s frame percent).elements.progressFill.width = percent := by
  unfold updateProgress
  cases s.sequenceInfo <;> simp [setWidthPercent, not_lt.mpr h]

theorem updateProgress_width_negative (s : State) (frame : Int) (percent : Rat)
    (h : percent < 0) :
    (updateProgress s frame percent).elements.progressFill.width
      = s.elements.progressFill.width := by
  unfold updateProgress
  cases s.sequenceInfo <;> simp [setWidthPercent, h]

theorem run_snoc (w : World) (events : List Event) (e : Event) :
    run w (events ++ [e]) = step (run w events) e := by
  simp [run, List.foldl_append]

/-- C5, the code on the events (1,10), (2,40), (1,5) of a running conversion:
the late event is applied, and the fill ends at 5, not at 40. -/
theorem updateProgress_applies_late_event :
    (run exampleBoot (exampleConvertEvents ++
      [.conversionProgress 1 10, .conversionProgress 2 40, .conversionProgress 1 5])
      ).page.elements.progressFill.width = 5 ∧
    (run exampleBoot (exampleConvertEvents ++
      [.conversionProgress 1 10, .conversionProgress 2 40, .conversionProgress 1 5])
      ).page.elements.progressFill.width ≠ 40 := by
  have h : (run exampleBoot (exampleConvertEvents ++
      [.conversionProgress 1 10, .conversionProgress 2 40, .conversionProgress 1 5])
      ).page.elements.progressFill.width = 5 := by
    have e : exampleConvertEvents ++
        [.conversionProgress 1 10, .conversionProgress 2 40, .conversionProgress 1 5]
        = (exampleConvertEvents ++ [.conversionProgress 1 10, .conversionProgress 2 40])
          ++ [.conversionProgress 1 5] := by simp
    rw [e, run_snoc]
    exact updateProgress_width _ 1 5 (by norm_num)
  rw [h]
  exact ⟨rfl, by norm_num⟩

/-- C5 as amended: `updateProgress` applies every `conversion-progress` event
whose percent is not negative as it comes, and discards none of them for
being lower than the one before. Whatever happened before, and whatever
percent the fill showed, after such an event the fill shows the percent of
that event. -/
theorem updateProgress_shows_last_event (w : World) (earlier : List Event)
    (frame : Int) (percent : Rat) (h : 0 ≤ percent) :
    (updateProgress w.page frame percent).elements.progressFill.width = percent ∧
    (run w (earlier ++ [.conversionProgress frame percent])).page.elements.progressFill.width
      = percent := by
  refine ⟨updateProgress_width _ _ _ h, ?_⟩
  rw [run_snoc]
  exact updateProgress_width _ _ _ h

/-- C5 as amended, on a running conversion that has shown 10 and then 40: an
event with the percent 5 brings the fill down to 5. -/
theorem updateProgress_shows_last_event_witness :
    (0 : Rat) ≤ 5 ∧
    (run exampleBoot (exampleProgressEvents ++ [.conversionProgress 3 5])
      ).page.elements.progressFill.width = 5 :=
  ⟨by simp, (updateProgress_shows_last_event exampleBoot exampleProgressEvents 3 5 (by simp)).2⟩

/-! ## Startup without FFmpeg -/

/-- C8, the code after `check_ffmpeg_installed` has answered
`installed = false`: the drop zone no longer takes clicks, but a
`tauri://drag-drop` event still reaches `handleFiles`, and
`analyze_png_sequence` is invoked with the dropped paths. -/
theorem dragDrop_analyses_without_ffmpeg (dom : Elements) (platform : String)
    (version : Option String) (selected : Option (List String)) (paths : List String) :
    step (boot dom platform (.resolved { installed := false, version := version }))
      (.clickDropZone selected)
      = boot dom platform (.resolved { installed := false, version := version }) ∧
    (step (boot dom platform (.resolved { installed := false, version := version }))
      (.dragDrop paths)).calls
      = [.check_ffmpeg_installed, .analyze_png_sequence paths] := by
  constructor
  · simp [step, boot, checkFfmpeg]
  · simp [step, boot, handleFiles]

/-! ## After a conversion has settled -/

theorem classAdd_mem (classes : List String) (token : String) :
    token ∈ classAdd classes token := by
  unfold classAdd
  split_ifs with h
  · exact h
  · simp

theorem startConversionSettled_unfold (s : State) (outputPath : String) (r : Settled Unit) :
    (startConversionSettled s outputPath r).isConverting = false ∧
    (startConversionSettled s outputPath r).elements.convertBtn.disabled = false ∧
    (startConversionSettled s outputPath r).elements.progressContainer.classList
      = classAdd s.elements.progressContainer.classList "hidden" ∧
    (startConversionSettled s outputPath r).sequenceInfo = s.sequenceInfo ∧
    (startConversionSettled s outputPath r).elements.framerateInput = s.elements.framerateInput ∧
    (startConversionSettled s outputPath r).elements.widthInput = s.elements.widthInput ∧
    (startConversionSettled s outputPath r).elements.loopCheckbox = s.elements.loopCheckbox ∧
    (startConversionSettled s outputPath r).elements.outputPath = s.elements.outputPath := by
  cases r <;>
    simp [startConversionSettled, showSuccess, showError, showMessage, hideProgress]

/-- C9: when a dispatched `startConversion` finishes, whether
`start_conversion` resolved or rejected, `isConverting` is false, the convert
button is enabled and the progress container is hidden; the sequence and the
input fields are as they were, so with valid parameters the next
`startConversion` sends its request to the encoder again. -/
theorem startConversion_settles_ready (s : State) (outputPath : String) (r : Settled Unit) :
    (startConversionSettled s outputPath r).isConverting = false ∧
    (startConversionSettled s outputPath r).elements.convertBtn.disabled = false ∧
    "hidden" ∈ (startConversionSettled s outputPath r).elements.progressContainer.classList ∧
    ∀ (info : SequenceInfo) (f w : Int), s.sequenceInfo = some info →
      s.elements.outputPath.value ≠ "" →
      parseInt s.elements.framerateInput.value = .int f → 1 ≤ f → f ≤ 120 →
      parseInt s.elements.widthInput.value = .int w → 1 ≤ w → w ≤ 10000 →
      (startConversion (startConversionSettled s outputPath r)).2 = some
        { sequence_info := info, framerate := .int f, width := .int w,
          loop_forever := s.elements.loopCheckbox.checked,
          output_path := s.elements.outputPath.value } := by
  obtain ⟨h1, h2, h3, h4, h5, h6, h7, h8⟩ := startConversionSettled_unfold s outputPath r
  refine ⟨h1, h2, ?_, ?_⟩
  · rw [h3]; exact classAdd_mem _ _
  · intro info f w hseq hpath hf hf1 hf2 hw hw1 hw2
    have key := startConversion_valid (startConversionSettled s outputPath r) info f w
      (by rw [h4]; exact hseq) h1 (by rw [h8]; exact hpath)
      (by rw [h5]; exact hf) hf1 hf2 (by rw [h6]; exact hw) hw1 hw2
    rw [key, h7, h8]

/-- C9 on a concrete run: the conversion of the examples is rejected by the
encoder, and the next click on the convert button sends the request again. -/
theorem startConversion_settles_ready_witness :
    (run exampleBoot exampleConvertEvents).page.sequenceInfo = some exampleInfo ∧
    (startConversion (startConversionSettled (run exampleBoot exampleConvertEvents).page
        "a/img__animated.gif" (.rejected "ffmpeg exited with code 1"))).2 = some
      { sequence_info := exampleInfo, framerate := .int 10, width := .int 800,
        loop_forever := true, output_path := "a/img__animated.gif" } :=
  ⟨by decide,
    (startConversion_settles_ready (run exampleBoot exampleConvertEvents).page
      "a/img__animated.gif" (.rejected "ffmpeg exited with code 1")).2.2.2
      exampleInfo 10 800 (by decide) (by decide) (by decide) (by decide) (by decide)
      (by decide) (by decide) (by decide)⟩

/-! ## What the user is told -/

/-- C10, the code on a rejection with the cause `ffmpeg exited with code 1`:
the message shown is the cause behind the words `Conversion failed: `, not
the cause alone. -/
theorem conversion_failure_text_has_lead :
    (run exampleBoot (exampleConvertEvents ++
      [.conversionSettled (.rejected "ffmpeg exited with code 1")])
      ).page.elements.message.textContent = "Conversion failed: ffmpeg exited with code 1" ∧
    (run exampleBoot (exampleConvertEvents ++
      [.conversionSettled (.rejected "ffmpeg exited with code 1")])
      ).page.elements.message.textContent ≠ "ffmpeg exited with code 1" := by
  constructor <;> decide

/-- C10 as amended: when `start_conversion` rejects with the cause `c`, the
error message shown is `Conversion failed: ` followed by `c` as it is; when an
analysis result has `valid = false` and a non-empty error string `e`, the
error message shown is `e` and nothing else. -/
theorem failure_messages (s : State) (outputPath c : String) (info : SequenceInfo) (e : String)
    (hvalid : info.valid = false) (herror : info.error = some e) (hne : e ≠ "") :
    (startConversionSettled s outputPath (.rejected c)).elements.message.textContent
      = "Conversion failed: " ++ c ∧
    showsError (startConversionSettled s outputPath (.rejected c)) = true ∧
    (handleFilesSettled s (.resolved info)).elements.message.textContent = e ∧
    showsError (handleFilesSettled s (.resolved info)) = true := by
  refine ⟨?_, ?_, ?_, ?_⟩
  · simp [startConversionSettled, showError, showMessage]
  · simp [startConversionSettled, showError, showMessage, showsError, classRemove, List.filter]
  · simp [handleFilesSettled, hvalid, herror, orElse, hne, hideSettings, hideSequenceInfo,
      showError, showMessage]
  · simp [handleFilesSettled, hvalid, hideSettings, hideSequenceInfo, showError, showMessage,
      showsError, classRemove, List.filter]

/-- C10 as amended, on the concrete results of the examples. -/
theorem failure_messages_witness :
    (startConversionSettled examplePage "a/img__animated.gif"
      (.rejected "ffmpeg exited with code 1")).elements.message.textContent
      = "Conversion failed: ffmpeg exited with code 1" ∧
    (handleFilesSettled examplePage (.resolved exampleInvalidInfo)).elements.message.textContent
      = "Files are in different directories" :=
  have h := failure_messages examplePage "a/img__animated.gif" "ffmpeg exited with code 1"
    exampleInvalidInfo "Files are in different directories" rfl rfl (by decide)
  ⟨h.1, h.2.2.1⟩

end PngToGif
